import Mathlib

/-!
Verification of the hit-counter HTTP service (`src/service/routes.py`).

The service exposes named counters backed by a key-value store.  The route
handlers are translated from the source; the store model (`Counter.find`,
`Counter.all`, creation, increment, deletion, connect) lives in `models.py`,
which is not among the sources, so those operations are modelled from the
spec: a counter is a name mapped to an integer value, created at 0,
incremented by 1 atomically, deleted by name.

Store failure is modelled by an `Option String` parameter threaded to every
handler: `some e` means the store raises a connection failure carrying
message `e` (`DatabaseConnectionError`), `none` means the store works.
-/

namespace HitCounter

/-- Modelled from the spec: the key-value store state owned by the store
adapter (`models.py` is missing from the sources).  Each counter is a name
with an integer value; names act as unique keys. -/
abbrev Store := List (String × Int)

/-- Modelled from the spec: get-by-name (`Counter.find`), returning the
value when a counter with that name exists and `none` otherwise. -/
def Counter.find : Store → String → Option Int
  | [], _ => none
  | (k, v) :: rest, name => if k = name then some v else Counter.find rest name

/-- Modelled from the spec: get-all (`Counter.all`), the list of all
counters. -/
def Counter.all (s : Store) : List (String × Int) := s

/-- Modelled from the spec: creating a counter (`Counter(name)`) stores the
name with value 0. -/
def Counter.create (s : Store) (name : String) : Store := (name, 0) :: s

/-- Modelled from the spec: atomic increment-by-name
(`counter.increment()`), returning the new value and the updated store.  An
absent name behaves like a stored value of 0, as with a native atomic
increment primitive. -/
def Counter.increment : Store → String → Int × Store
  | [], name => (1, [(name, 1)])
  | (k, v) :: rest, name =>
    if k = name then (v + 1, (k, v + 1) :: rest)
    else
      let r := Counter.increment rest name
      (r.1, (k, v) :: r.2)

/-- Modelled from the spec: delete-by-name (`del counter.value`), removing
every binding of the name from the store. -/
def Counter.delete : Store → String → Store
  | [], _ => []
  | (k, v) :: rest, name =>
    if k = name then Counter.delete rest name
    else (k, v) :: Counter.delete rest name

/-- Modelled from the spec: `Counter.connect(DATABASE_URI)` raises a
connection failure (`DatabaseConnectionError`) exactly when the store is
failing, carrying the failure message. -/
def Counter.connect (dbErr : Option String) : Except String Unit :=
  match dbErr with
  | some e => .error e
  | none => .ok ()

/-- Response bodies produced by the handlers: empty string, the health
payload, a serialized counter, a counter list, a structured error object
built with `jsonify(code=..., error=...)`, or the default framework
payload produced by `abort(code, message)`. -/
inductive Body where
  | empty : Body
  | healthJson (stat : String) : Body
  | counterJson (name : String) (counter : Int) : Body
  | countersJson (counters : List (String × Int)) : Body
  | errorJson (code : Nat) (error : String) : Body
  | abortPayload (code : Nat) (message : String) : Body
deriving DecidableEq, Repr

/-- An HTTP response: status code, body, and optional Location header. -/
structure Response where
  statusCode : Nat
  body : Body
  location : Option String := none
deriving DecidableEq, Repr

/-- `GET /health` (routes.py line 34).  The handler ignores the ambient
store state and failure flag: it performs no store call. -/
def health (_dbErr : Option String) (_s : Store) : Response :=
  ⟨200, .healthJson "OK", none⟩

/-- `GET /counters` (routes.py line 58): list all counters, or 503 if the
store raises. -/
def list_counters (dbErr : Option String) (s : Store) : Response :=
  match dbErr with
  | some e => ⟨503, .abortPayload 503 e, none⟩
  | none => ⟨200, .countersJson (Counter.all s), none⟩

/-- `GET /counters/name` (routes.py line 73): 200 with the serialized
counter when found, `abort(404, ...)` when absent, 503 if the store
raises. -/
def read_counters (dbErr : Option String) (s : Store) (name : String) : Response :=
  match dbErr with
  | some e => ⟨503, .abortPayload 503 e, none⟩
  | none =>
    match Counter.find s name with
    | none => ⟨404, .abortPayload 404 ("Counter " ++ name ++ " does not exist"), none⟩
    | some v => ⟨200, .counterJson name v, none⟩

/-- `POST /counters/name` (routes.py line 93): 409 with a structured error
body when the name exists, otherwise create at 0 and answer 201 with a
Location header for the read endpoint; 503 if the store raises.  Returns
the response together with the resulting store. -/
def create_counters (dbErr : Option String) (s : Store) (name : String) :
    Response × Store :=
  match dbErr with
  | some e => (⟨503, .abortPayload 503 e, none⟩, s)
  | none =>
    match Counter.find s name with
    | some _ => (⟨409, .errorJson 409 "Counter already exists", none⟩, s)
    | none =>
      (⟨201, .counterJson name 0, some ("/counters/" ++ name)⟩,
        Counter.create s name)

/-- `PUT /counters/name` (routes.py line 117): structured 404 error body
when the name is absent, otherwise increment and answer 200 with the new
value; 503 if the store raises.  Returns the response together with the
resulting store. -/
def update_counters (dbErr : Option String) (s : Store) (name : String) :
    Response × Store :=
  match dbErr with
  | some e => (⟨503, .abortPayload 503 e, none⟩, s)
  | none =>
    match Counter.find s name with
    | none => (⟨404, .errorJson 404 ("Counter " ++ name ++ " does not exist"), none⟩, s)
    | some _ =>
      let r := Counter.increment s name
      (⟨200, .counterJson name r.1, none⟩, r.2)

/-- `DELETE /counters/name` (routes.py line 136): delete when present, do
nothing when absent, always 204 with empty body; 503 if the store raises.
Returns the response together with the resulting store. -/
def delete_counters (dbErr : Option String) (s : Store) (name : String) :
    Response × Store :=
  match dbErr with
  | some e => (⟨503, .abortPayload 503 e, none⟩, s)
  | none =>
    match Counter.find s name with
    | some _ => (⟨204, .empty, none⟩, Counter.delete s name)
    | none => (⟨204, .empty, none⟩, s)

/-- `init_db` (routes.py line 154): connect to the store inside a
try/except that catches `DatabaseConnectionError` and logs it.  The result
is the log trail; a propagated exception would be `Except.error`. -/
def init_db (dbErr : Option String) : Except String (List String) :=
  match Counter.connect dbErr with
  | .ok _ => .ok ["Initializing the Redis database", "Connected!"]
  | .error e => .ok ["Initializing the Redis database", "ERROR: " ++ e]

/-- Iterating the store effect of `n` successive PUT requests. -/
def putN : Nat → Store → String → Store
  | 0, s, _ => s
  | n + 1, s, name => putN n (update_counters none s name).2 name

/-- Store states reachable from the empty store through the mutating
handlers, under any store-failure condition. -/
inductive Reachable : Store → Prop where
  | init : Reachable []
  | step_create (d : Option String) (s : Store) (name : String) :
      Reachable s → Reachable (create_counters d s name).2
  | step_update (d : Option String) (s : Store) (name : String) :
      Reachable s → Reachable (update_counters d s name).2
  | step_delete (d : Option String) (s : Store) (name : String) :
      Reachable s → Reachable (delete_counters d s name).2

/-- Finding a name right after creating it yields value 0. -/
theorem Counter.find_create (s : Store) (name : String) :
    Counter.find (Counter.create s name) name = some 0 := by
  simp [Counter.create, Counter.find]

/-- Incrementing a stored counter returns its old value plus one, and the
updated store maps the name to that new value. -/
theorem Counter.find_increment (s : Store) (name : String) (v : Int)
    (h : Counter.find s name = some v) :
    (Counter.increment s name).1 = v + 1 ∧
      Counter.find (Counter.increment s name).2 name = some (v + 1) := by
  induction s with
  | nil => simp [Counter.find] at h
  | cons p rest ih =>
    obtain ⟨k, w⟩ := p
    by_cases hk : k = name
    · subst hk
      simp [Counter.find] at h
      subst h
      simp [Counter.increment, Counter.find]
    · simp only [Counter.find, if_neg hk] at h
      have hr := ih h
      simp only [Counter.increment, if_neg hk, Counter.find]
      exact ⟨hr.1, by simp [Counter.find, if_neg hk, hr.2]⟩

/-- After a deletion the deleted name is no longer found. -/
theorem Counter.find_delete (s : Store) (name : String) :
    Counter.find (Counter.delete s name) name = none := by
  induction s with
  | nil => simp [Counter.delete, Counter.find]
  | cons p rest ih =>
    obtain ⟨k, w⟩ := p
    by_cases hk : k = name
    · simpa [Counter.delete, hk] using ih
    · simpa [Counter.delete, Counter.find, hk] using ih

/-- Iterating `n` PUT requests on a counter stored at value `v` leaves it
stored at value `v + n`. -/
theorem putN_find (n : Nat) (s : Store) (name : String) (v : Int)
    (h : Counter.find s name = some v) :
    Counter.find (putN n s name) name = some (v + n) := by
  induction n generalizing s v with
  | zero => simpa using h
  | succ n ih =>
    have hstep := Counter.find_increment s name v h
    have h2 : (update_counters none s name).2 = (Counter.increment s name).2 := by
      simp [update_counters, h]
    rw [putN, h2]
    have h3 := ih (Counter.increment s name).2 (v + 1) hstep.2
    rw [h3]
    congr 1
    push_cast
    ring

/-- Incrementing preserves nonnegativity of all stored values. -/
theorem nonneg_increment (s : Store) (name : String)
    (h : ∀ p ∈ s, 0 ≤ p.2) : ∀ p ∈ (Counter.increment s name).2, 0 ≤ p.2 := by
  induction s with
  | nil =>
    intro p hp
    simp [Counter.increment] at hp
    simp [hp]
  | cons q rest ih =>
    obtain ⟨k, w⟩ := q
    have hw : (0 : Int) ≤ w := h (k, w) (List.mem_cons_self _ _)
    have hrest : ∀ p ∈ rest, (0 : Int) ≤ p.2 :=
      fun p hp => h p (List.mem_cons_of_mem _ hp)
    intro p hp
    by_cases hk : k = name
    · simp only [Counter.increment, if_pos hk] at hp
      rcases List.mem_cons.mp hp with rfl | hp
      · simpa using by linarith
      · exact hrest p hp
    · simp only [Counter.increment, if_neg hk] at hp
      rcases List.mem_cons.mp hp with rfl | hp
      · exact hw
      · exact ih hrest p hp

/-- Deletion preserves nonnegativity of all stored values. -/
theorem nonneg_delete (s : Store) (name : String)
    (h : ∀ p ∈ s, 0 ≤ p.2) : ∀ p ∈ Counter.delete s name, 0 ≤ p.2 := by
  induction s with
  | nil => intro p hp; simp [Counter.delete] at hp
  | cons q rest ih =>
    obtain ⟨k, w⟩ := q
    have hrest : ∀ p ∈ rest, (0 : Int) ≤ p.2 :=
      fun p hp => h p (List.mem_cons_of_mem _ hp)
    intro p hp
    by_cases hk : k = name
    · simp only [Counter.delete, if_pos hk] at hp
      exact ih hrest p hp
    · simp only [Counter.delete, if_neg hk] at hp
      rcases List.mem_cons.mp hp with rfl | hp
      · exact h (k, w) (List.mem_cons_self _ _)
      · exact ih hrest p hp

/-- C1: a PUT on a nonexistent name answers 404; a PUT on an existing
counter answers 200 with body name and old value plus one and stores
exactly that incremented value; after creating a counter and issuing `n`
PUT requests the stored value equals `n`. -/
theorem put_contract (s : Store) (name : String) (n : Nat)
    (habs : Counter.find s name = none) :
    (update_counters none s name).1.statusCode = 404
    ∧ (∀ t v, Counter.find t name = some v →
        (update_counters none t name).1 = ⟨200, .counterJson name (v + 1), none⟩
        ∧ Counter.find (update_counters none t name).2 name = some (v + 1))
    ∧ Counter.find (putN n (create_counters none s name).2 name) name = some (n : Int) := by
  refine ⟨by simp [update_counters, habs], ?_, ?_⟩
  · intro t v hv
    have h2 := Counter.find_increment t name v hv
    exact ⟨by simp [update_counters, hv, h2.1], by simp [update_counters, hv, h2.2]⟩
  · have hc : Counter.find (create_counters none s name).2 name = some 0 := by
      simp [create_counters, habs, Counter.find_create]
    simpa using putN_find n _ name 0 hc

/-- C1 witness: creating a counter in the empty store and issuing three PUT
requests leaves the value at 3. -/
theorem put_contract_check :
    Counter.find (putN 3 (create_counters none ([] : Store) "hits").2 "hits") "hits"
      = some 3 :=
  (put_contract [] "hits" 3 rfl).2.2

/-- C2: a POST when the name exists answers 409 with an error body and
leaves the store unchanged; when the name is absent it answers 201 with the
serialized counter at 0, a Location header for the read endpoint, and
stores the counter at 0; hence two consecutive POSTs of one name answer
201 then 409. -/
theorem post_contract (s : Store) (name : String) :
    (∀ v, Counter.find s name = some v →
      (create_counters none s name).1 = ⟨409, .errorJson 409 "Counter already exists", none⟩
      ∧ (create_counters none s name).2 = s)
    ∧ (Counter.find s name = none →
      (create_counters none s name).1 =
        ⟨201, .counterJson name 0, some ("/counters/" ++ name)⟩
      ∧ Counter.find (create_counters none s name).2 name = some 0)
    ∧ (Counter.find s name = none →
      (create_counters none s name).1.statusCode = 201
      ∧ (create_counters none (create_counters none s name).2 name).1.statusCode = 409) := by
  refine ⟨?_, ?_, ?_⟩
  · intro v hv
    exact ⟨by simp [create_counters, hv], by simp [create_counters, hv]⟩
  · intro h
    exact ⟨by simp [create_counters, h],
      by simp [create_counters, h, Counter.find_create]⟩
  · intro h
    have hc : Counter.find (create_counters none s name).2 name = some 0 := by
      simp [create_counters, h, Counter.find_create]
    refine ⟨by simp [create_counters, h], ?_⟩
    generalize (create_counters none s name).2 = s2 at hc ⊢
    simp [create_counters, hc]

/-- C2 witness: posting the same name twice on the empty store answers 201
then 409. -/
theorem post_contract_check :
    (create_counters none ([] : Store) "clicks").1.statusCode = 201
    ∧ (create_counters none (create_counters none ([] : Store) "clicks").2 "clicks").1.statusCode
        = 409 :=
  (post_contract [] "clicks").2.2 rfl

/-- A successful DELETE answers 204 with an empty body from every store
state. -/
theorem delete_status (s : Store) (name : String) :
    (delete_counters none s name).1 = ⟨204, .empty, none⟩ := by
  rcases hf : Counter.find s name with _ | v <;> simp [delete_counters, hf]

/-- C3: a DELETE always answers 204 with an empty body, the resulting store
no longer contains the name, and a second DELETE of the same name again
answers 204. -/
theorem delete_contract (s : Store) (name : String) :
    (delete_counters none s name).1 = ⟨204, .empty, none⟩
    ∧ Counter.find (delete_counters none s name).2 name = none
    ∧ (delete_counters none (delete_counters none s name).2 name).1
        = ⟨204, .empty, none⟩ := by
  refine ⟨delete_status s name, ?_, delete_status _ name⟩
  rcases hf : Counter.find s name with _ | v <;>
    simp [delete_counters, hf, Counter.find_delete]

/-- C4: a GET answers 200 with the serialized counter when the name is
stored, 404 when it is absent, 404 right after a DELETE of the name, and
404 on the empty store. -/
theorem get_contract (s : Store) (name : String) :
    (∀ v, Counter.find s name = some v →
      read_counters none s name = ⟨200, .counterJson name v, none⟩)
    ∧ (Counter.find s name = none →
      (read_counters none s name).statusCode = 404)
    ∧ (read_counters none (delete_counters none s name).2 name).statusCode = 404
    ∧ (read_counters none [] name).statusCode = 404 := by
  refine ⟨?_, ?_, ?_, ?_⟩
  · intro v hv; simp [read_counters, hv]
  · intro h; simp [read_counters, h]
  · have h2 : Counter.find (delete_counters none s name).2 name = none := by
      rcases hf : Counter.find s name with _ | v <;>
        simp [delete_counters, hf, Counter.find_delete]
    simp [read_counters, h2]
  · simp [read_counters, Counter.find]

/-- C4 witness: reading a stored counter answers 200 with its value. -/
theorem get_contract_check :
    read_counters none [("clicks", (5 : Int))] "clicks"
      = ⟨200, .counterJson "clicks" 5, none⟩ :=
  (get_contract [("clicks", 5)] "clicks").1 5 rfl

/-- C5: each handler answers 503 exactly when the store raises, and on a
raise the body carries the failure message through the abort payload. -/
theorem store_failure_503 (d : Option String) (s : Store) (name : String) :
    ((list_counters d s).statusCode = 503 ↔ d.isSome)
    ∧ ((read_counters d s name).statusCode = 503 ↔ d.isSome)
    ∧ ((create_counters d s name).1.statusCode = 503 ↔ d.isSome)
    ∧ ((update_counters d s name).1.statusCode = 503 ↔ d.isSome)
    ∧ ((delete_counters d s name).1.statusCode = 503 ↔ d.isSome)
    ∧ (∀ e, d = some e →
        (list_counters d s).body = .abortPayload 503 e
        ∧ (read_counters d s name).body = .abortPayload 503 e
        ∧ (create_counters d s name).1.body = .abortPayload 503 e
        ∧ (update_counters d s name).1.body = .abortPayload 503 e
        ∧ (delete_counters d s name).1.body = .abortPayload 503 e) := by
  cases d with
  | some e =>
    simp [list_counters, read_counters, create_counters, update_counters,
      delete_counters]
  | none =>
    refine ⟨?_, ?_, ?_, ?_, ?_, by intro e he; cases he⟩ <;>
      rcases hf : Counter.find s name with _ | v <;>
      simp [list_counters, read_counters, create_counters, update_counters,
        delete_counters, hf]

/-- C5 witness: under a failing store each handler body is the abort
payload carrying the failure message. -/
theorem store_failure_503_check :
    (list_counters (some "redis down") []).body = .abortPayload 503 "redis down"
    ∧ (read_counters (some "redis down") [] "hits").body = .abortPayload 503 "redis down"
    ∧ (create_counters (some "redis down") [] "hits").1.body = .abortPayload 503 "redis down"
    ∧ (update_counters (some "redis down") [] "hits").1.body = .abortPayload 503 "redis down"
    ∧ (delete_counters (some "redis down") [] "hits").1.body = .abortPayload 503 "redis down" :=
  (store_failure_503 (some "redis down") [] "hits").2.2.2.2.2 "redis down" rfl

/-- C6: every store state reachable through the handlers maps each counter
to a nonnegative value. -/
theorem counter_values_nonneg {s : Store} (h : Reachable s) :
    ∀ p ∈ s, 0 ≤ p.2 := by
  induction h with
  | init => intro p hp; cases hp
  | step_create d s name _ ih =>
    cases d with
    | some e => simpa [create_counters] using ih
    | none =>
      rcases hf : Counter.find s name with _ | v
      · intro p hp
        simp only [create_counters, hf, Counter.create] at hp
        rcases List.mem_cons.mp hp with rfl | hp
        · simp
        · exact ih p hp
      · simpa [create_counters, hf] using ih
  | step_update d s name _ ih =>
    cases d with
    | some e => simpa [update_counters] using ih
    | none =>
      rcases hf : Counter.find s name with _ | v
      · simpa [update_counters, hf] using ih
      · intro p hp
        simp only [update_counters, hf] at hp
        exact nonneg_increment s name ih p hp
  | step_delete d s name _ ih =>
    cases d with
    | some e => simpa [delete_counters] using ih
    | none =>
      rcases hf : Counter.find s name with _ | v
      · simpa [delete_counters, hf] using ih
      · intro p hp
        simp only [delete_counters, hf] at hp
        exact nonneg_delete s name ih p hp

/-- C6 witness: the counter stored by a POST on the empty store has a
nonnegative value. -/
theorem counter_values_nonneg_check :
    (0 : Int) ≤ (("hits", (0 : Int))).2 :=
  counter_values_nonneg
    (Reachable.step_create none [] "hits" Reachable.init)
    ("hits", 0)
    (by simp [create_counters, Counter.find, Counter.create])

/-- C7: the health endpoint answers 200 with the OK payload for every
failure condition and store state, touching neither. -/
theorem health_contract (d : Option String) (s : Store) :
    health d s = ⟨200, .healthJson "OK", none⟩ := rfl

/-- C8: the 404 of a PUT on a missing name is the structured error body
with code 404 and the does-not-exist message, while the 404 of a GET on the
same name is the default framework abort payload. -/
theorem put_404_body (s : Store) (name : String)
    (h : Counter.find s name = none) :
    (update_counters none s name).1 =
      ⟨404, .errorJson 404 ("Counter " ++ name ++ " does not exist"), none⟩
    ∧ (read_counters none s name).body =
      .abortPayload 404 ("Counter " ++ name ++ " does not exist") := by
  exact ⟨by simp [update_counters, h], by simp [read_counters, h]⟩

/-- C8 witness: on the empty store the PUT 404 body is the structured
error object. -/
theorem put_404_body_check :
    (update_counters none ([] : Store) "hits").1 =
      ⟨404, .errorJson 404 ("Counter " ++ "hits" ++ " does not exist"), none⟩ :=
  (put_404_body [] "hits" rfl).1

/-- C9: `init_db` always returns normally, and when the connection raises
it logs the failure message instead of propagating it. -/
theorem init_db_contract (d : Option String) :
    (∃ logs, init_db d = .ok logs)
    ∧ (∀ e, d = some e →
        init_db d = .ok ["Initializing the Redis database", "ERROR: " ++ e]) := by
  cases d with
  | none => exact ⟨⟨_, rfl⟩, by intro e he; cases he⟩
  | some e => exact ⟨⟨_, rfl⟩, by intro e2 he; cases he; rfl⟩

/-- C9 witness: a failing connection is caught and logged. -/
theorem init_db_contract_check :
    init_db (some "redis unreachable")
      = .ok ["Initializing the Redis database", "ERROR: " ++ "redis unreachable"] :=
  (init_db_contract (some "redis unreachable")).2 "redis unreachable" rfl

end HitCounter
